import Mathlib

/-!
Verification development for the Claude Anywhere relay server
(`relay_server.py`): a WebSocket server bridging remote clients to a
PTY-hosted child process.

Bytes are modelled as `Nat` values (< 256 by construction where it
matters), byte strings as `List Nat`, and Python text strings as Lean
`String`.  Fallible Python code (raising exceptions) is modelled with
`Except` / `Option`.  The incoming network transport is modelled as a
list of chunks, reflecting that `asyncio.StreamReader.read(n)` returns
as soon as any data is available and may return fewer than `n` bytes.

All recursive definitions are structural (several use an explicit fuel
argument sized from the input) so that every definition evaluates on
concrete inputs inside the kernel.
-/

/-- Model of `SYNC_START = b'\x1b[?2026h'`: the synchronized-update begin marker
stripped from PTY output (`relay_server.py` line 30). -/
def SYNC_START : List Nat := [27, 91, 63, 50, 48, 50, 54, 104]

/-- Model of `SYNC_END = b'\x1b[?2026l'`: the synchronized-update end marker
(`relay_server.py` line 31). -/
def SYNC_END : List Nat := [27, 91, 63, 50, 48, 50, 54, 108]

/-- Model of `leadsWith pat s` holds when `pat` is an initial segment of `s`
(used to model the scanning done by Python `bytes.replace`). -/
def leadsWith : List Nat → List Nat → Bool
  | [], _ => true
  | _ :: _, [] => false
  | a :: as, b :: bs => a == b && leadsWith as bs

/-- One fuel-indexed pass of Python `bytes.replace(pat, b'')`:
left-to-right, non-overlapping removal of every occurrence of the
(nonempty) pattern `pat`.  The fuel is an upper bound on the number of
bytes examined; callers pass the length of the input, which suffices
because every step consumes at least one byte. -/
def bytesRemoveAux (pat : List Nat) : Nat → List Nat → List Nat
  | 0, s => s
  | _ + 1, [] => []
  | fuel + 1, c :: rest =>
    if leadsWith pat (c :: rest) && !pat.isEmpty then
      bytesRemoveAux pat fuel (List.drop pat.length (c :: rest))
    else
      c :: bytesRemoveAux pat fuel rest

/-- Python `data.replace(pat, b'')` for a nonempty pattern. -/
def bytesRemove (pat s : List Nat) : List Nat :=
  bytesRemoveAux pat s.length s

/-- Model of `strip_sync_markers(data)` from `relay_server.py` lines 33-35:
`data.replace(SYNC_START, b'').replace(SYNC_END, b'')`. -/
def strip_sync_markers (data : List Nat) : List Nat :=
  bytesRemove SYNC_END (bytesRemove SYNC_START data)

/-- The cumulative bytes relayed by `ClaudeSession._read_pty` for a
given sequence of PTY reads: each read chunk is passed through
`strip_sync_markers` in isolation (lines 352-363) and the results are
concatenated on the outgoing connection.  There is no carry-over
buffer between reads. -/
def pty_relay_output (reads : List (List Nat)) : List Nat :=
  (reads.map strip_sync_markers).flatten

/-! ### WebSocket frame layer (`WebSocketConnection`) -/

/-- Model of `struct.pack(">H", n)`: big-endian 16-bit encoding.  Python raises
for `n ≥ 2^16`; in `_send_frame` the call site guarantees `n < 65536`,
under which this agrees with `struct.pack`. -/
def pack16 (n : Nat) : List Nat :=
  [n / 256 % 256, n % 256]

/-- Model of `struct.pack(">Q", n)`: big-endian 64-bit encoding (call sites
guarantee `n < 2^64`, under which this agrees with `struct.pack`). -/
def pack64 (n : Nat) : List Nat :=
  [n / 2 ^ 56 % 256, n / 2 ^ 48 % 256, n / 2 ^ 40 % 256, n / 2 ^ 32 % 256,
   n / 2 ^ 24 % 256, n / 2 ^ 16 % 256, n / 2 ^ 8 % 256, n % 256]

/-- Model of `struct.unpack(">H", bs)[0]` for a 2-byte string. -/
def unpack16 (bs : List Nat) : Nat :=
  bs.getD 0 0 * 256 + bs.getD 1 0

/-- Model of `struct.unpack(">Q", bs)[0]` for an 8-byte string. -/
def unpack64 (bs : List Nat) : Nat :=
  bs.foldl (fun a b => a * 256 + b) 0

/-- The length bytes written by `WebSocketConnection._send_frame`
(lines 179-188): the second frame byte and any extended length bytes.
`< 126` → one byte; `< 65536` → marker `126` plus 2 big-endian bytes;
otherwise marker `127` plus 8 big-endian bytes.  The mask bit is
always clear (server frames are unmasked). -/
def send_frame_len (length : Nat) : List Nat :=
  if length < 126 then [length]
  else if length < 65536 then 126 :: pack16 length
  else 127 :: pack64 length

/-- The length decoding performed by `WebSocketConnection.recv`
(lines 129-138) applied to a byte list starting at the second frame
byte: take `byte & 0x7F`; on `126` consume 2 further big-endian bytes,
on `127` consume 8.  Returns the declared payload length and the
remaining bytes, or `none` when the bytes run out (`struct.unpack`
would raise on a short buffer). -/
def recv_frame_len : List Nat → Option (Nat × List Nat)
  | [] => none
  | b :: rest =>
    let base := b &&& 0x7F
    if base = 126 then
      if rest.length < 2 then none
      else some (unpack16 (rest.take 2), rest.drop 2)
    else if base = 127 then
      if rest.length < 8 then none
      else some (unpack64 (rest.take 8), rest.drop 8)
    else
      some (base, rest)

/-- The masking XOR of `WebSocketConnection.recv` line 150:
`bytes(payload[i] ^ mask_key[i % 4] for i in range(len(payload)))`,
started at index `i`.  Indexing a too-short key is Python `IndexError`,
modelled as `none`. -/
def xorMask (key : List Nat) : Nat → List Nat → Option (List Nat)
  | _, [] => some []
  | i, b :: rest =>
    match key.get? (i % 4) with
    | none => none
    | some m => (xorMask key (i + 1) rest).map (fun tl => (b ^^^ m) :: tl)

/-- Modelled from the spec: client-side frame masking, which does not
appear in this server — RFC 6455 masking is the identical XOR with
`mask_key[i mod 4]` that `recv` uses to unmask. -/
def maskPayload (payload key : List Nat) : Option (List Nat) :=
  xorMask key 0 payload

/-- Server-side unmasking as performed by `recv` (line 150). -/
def unmaskPayload (payload key : List Nat) : Option (List Nat) :=
  xorMask key 0 payload

/-- The inbound transport: the chunks the stream will deliver, in
order.  An empty list means end of stream. -/
def ChunkStream := List (List Nat)

/-- Model of `asyncio.StreamReader.read(n)`: waits for data and returns at most
`n` bytes — possibly fewer than `n` when only part of the data has
arrived, and `b''` at end of stream.  Modelled by serving up to `n`
bytes from the first pending chunk. -/
def readUpTo (n : Nat) : List (List Nat) → List Nat × List (List Nat)
  | [] => ([], [])
  | c :: rest =>
    if c.length ≤ n then (c, rest)
    else (c.take n, c.drop n :: rest)

/-- Failure modes of `WebSocketConnection.recv`. -/
inductive RecvErr where
  | connClosed
  | connClosedByClient
  | structError
  | indexError
deriving DecidableEq, Repr

/-- Model of `WebSocketConnection.recv` (lines 116-162) over a chunked
transport, returning the payload bytes of the next data frame and the
unconsumed transport.  Faithful to the source: the 2 header bytes are
checked for shortness, but the extended-length, mask-key and payload
reads are single `read` calls whose results are used as-is (a short
payload read is not retried; at end of stream `read` returns `b''`).
Close frames raise `ConnectionError`; ping frames answer with a pong
(an outbound effect not modelled here) and recurse; pong frames
recurse.  The fuel bounds that recursion and is never exhausted in
the concrete runs proved below (UTF-8 lossy decoding of the returned
payload is left to the caller). -/
def ws_recv : Nat → List (List Nat) → Except RecvErr (List Nat × List (List Nat))
  | 0, _ => .error .connClosed
  | fuel + 1, chunks =>
    let (header, s1) := readUpTo 2 chunks
    if header.length < 2 then .error .connClosed
    else
      let b0 := header.getD 0 0
      let b1 := header.getD 1 0
      let opcode := b0 &&& 0x0F
      let masked := (b1 >>> 7) &&& 1
      let lenByte := b1 &&& 0x7F
      let extRead : Except RecvErr (Nat × List (List Nat)) :=
        if lenByte = 126 then
          let (ext, s2) := readUpTo 2 s1
          if ext.length = 2 then .ok (unpack16 ext, s2) else .error .structError
        else if lenByte = 127 then
          let (ext, s2) := readUpTo 8 s1
          if ext.length = 8 then .ok (unpack64 ext, s2) else .error .structError
        else .ok (lenByte, s1)
      match extRead with
      | .error e => .error e
      | .ok (payloadLen, s2) =>
        let (maskKey, s3) :=
          if masked = 1 then
            let (mk, s3) := readUpTo 4 s2
            (some mk, s3)
          else (none, s2)
        let (payload, s4) := readUpTo payloadLen s3
        let unmasked : Except RecvErr (List Nat) :=
          match maskKey with
          | some mk =>
            if mk.isEmpty then .ok payload
            else
              match xorMask mk 0 payload with
              | some p => .ok p
              | none => .error .indexError
          | none => .ok payload
        match unmasked with
        | .error e => .error e
        | .ok payload =>
          if opcode = 0x8 then .error .connClosedByClient
          else if opcode = 0x9 then ws_recv fuel s4
          else if opcode = 0xA then ws_recv fuel s4
          else .ok (payload, s4)

/-! ### Handshake accept value (`WebSocketConnection.accept`) -/

/-- UTF-8 encoding of one Unicode code point (1 to 4 bytes), used to
model Python `str.encode()`. -/
def utf8EncodeChar (n : Nat) : List Nat :=
  if n < 0x80 then [n]
  else if n < 0x800 then
    [0xC0 ||| (n >>> 6), 0x80 ||| (n &&& 0x3F)]
  else if n < 0x10000 then
    [0xE0 ||| (n >>> 12), 0x80 ||| ((n >>> 6) &&& 0x3F), 0x80 ||| (n &&& 0x3F)]
  else
    [0xF0 ||| (n >>> 18), 0x80 ||| ((n >>> 12) &&& 0x3F),
     0x80 ||| ((n >>> 6) &&& 0x3F), 0x80 ||| (n &&& 0x3F)]

/-- Python `s.encode('utf-8')` as a byte list. -/
def utf8Encode (s : String) : List Nat :=
  (s.data.map (fun c => utf8EncodeChar c.toNat)).flatten

/-- The fixed WebSocket GUID `WS_MAGIC` (`relay_server.py` line 55),
as its 36 ASCII bytes. -/
def WS_MAGIC : List Nat :=
  utf8Encode "258EAFA5-E914-47DA-95CA-C5AB0DC85B11"

/-- Left rotation of a 32-bit word. -/
def rotl32 (x k : Nat) : Nat :=
  ((x <<< k) ||| (x >>> (32 - k))) % 2 ^ 32

/-- SHA-1 padding: append `0x80`, zero bytes to 56 mod 64, then the
64-bit big-endian bit length of the message. -/
def sha1Pad (msg : List Nat) : List Nat :=
  msg ++ [0x80] ++ List.replicate ((119 - msg.length % 64) % 64) 0
      ++ pack64 (8 * msg.length)

/-- Split a byte list into successive 64-byte blocks (fuel-indexed;
callers pass the length, which suffices). -/
def toBlocks : Nat → List Nat → List (List Nat)
  | 0, _ => []
  | _ + 1, [] => []
  | fuel + 1, l => l.take 64 :: toBlocks fuel (l.drop 64)

/-- Big-endian 32-bit words of a 64-byte block. -/
def blockWords : List Nat → List Nat
  | b0 :: b1 :: b2 :: b3 :: rest =>
    (b0 * 2 ^ 24 + b1 * 2 ^ 16 + b2 * 2 ^ 8 + b3) :: blockWords rest
  | _ => []

/-- Message-schedule extension: given the words so far in reverse
order, prepend `count` further words, each
`rotl1 (w[t-3] xor w[t-8] xor w[t-14] xor w[t-16])`. -/
def sha1Extend : Nat → List Nat → List Nat
  | 0, rws => rws
  | count + 1, rws =>
    sha1Extend count
      (rotl32 ((rws.getD 2 0) ^^^ (rws.getD 7 0) ^^^ (rws.getD 13 0) ^^^ (rws.getD 15 0)) 1
        :: rws)

/-- The SHA-1 round function and constant for round `t`. -/
def sha1F (t b c d : Nat) : Nat × Nat :=
  if t < 20 then ((b &&& c) ||| ((b ^^^ 0xFFFFFFFF) &&& d), 0x5A827999)
  else if t < 40 then (b ^^^ c ^^^ d, 0x6ED9EBA1)
  else if t < 60 then ((b &&& c) ||| (b &&& d) ||| (c &&& d), 0x8F1BBCDC)
  else (b ^^^ c ^^^ d, 0xCA62C1D6)

/-- One SHA-1 compression round. -/
def sha1Round (st : Nat × Nat × Nat × Nat × Nat) (tw : Nat × Nat) :
    Nat × Nat × Nat × Nat × Nat :=
  let (a, b, c, d, e) := st
  let (t, w) := tw
  let (f, k) := sha1F t b c d
  let temp := (rotl32 a 5 + f + e + k + w) % 2 ^ 32
  (temp, a, rotl32 b 30, c, d)

/-- SHA-1 compression of one 64-byte block into the running state. -/
def sha1Block (h : Nat × Nat × Nat × Nat × Nat) (block : List Nat) :
    Nat × Nat × Nat × Nat × Nat :=
  let w16 := blockWords block
  let w := (sha1Extend 64 w16.reverse).reverse
  let (a, b, c, d, e) :=
    (((List.range 80).zip w).foldl sha1Round h)
  let (h0, h1, h2, h3, h4) := h
  ((h0 + a) % 2 ^ 32, (h1 + b) % 2 ^ 32, (h2 + c) % 2 ^ 32,
   (h3 + d) % 2 ^ 32, (h4 + e) % 2 ^ 32)

/-- Big-endian 32-bit byte encoding. -/
def pack32 (n : Nat) : List Nat :=
  [n / 2 ^ 24 % 256, n / 2 ^ 16 % 256, n / 2 ^ 8 % 256, n % 256]

/-- Model of `hashlib.sha1(msg).digest()`: the 20-byte SHA-1 digest. -/
def sha1 (msg : List Nat) : List Nat :=
  let padded := sha1Pad msg
  let blocks := toBlocks padded.length padded
  let (h0, h1, h2, h3, h4) :=
    blocks.foldl sha1Block (0x67452301, 0xEFCDAB89, 0x98BADCFE, 0x10325476, 0xC3D2E1F0)
  pack32 h0 ++ pack32 h1 ++ pack32 h2 ++ pack32 h3 ++ pack32 h4

/-- The base64 alphabet. -/
def b64Alphabet : List Char :=
  "ABCDEFGHIJKLMNOPQRSTUVWXYZabcdefghijklmnopqrstuvwxyz0123456789+/".data

/-- Model of `base64.b64encode` over 3-byte groups (fuel-indexed; callers pass
the length, which suffices). -/
def b64EncodeAux : Nat → List Nat → List Char
  | 0, _ => []
  | _ + 1, [] => []
  | _ + 1, [a] =>
    [b64Alphabet.getD (a >>> 2) 'A',
     b64Alphabet.getD ((a &&& 0x3) <<< 4) 'A', '=', '=']
  | _ + 1, [a, b] =>
    [b64Alphabet.getD (a >>> 2) 'A',
     b64Alphabet.getD (((a &&& 0x3) <<< 4) ||| (b >>> 4)) 'A',
     b64Alphabet.getD ((b &&& 0xF) <<< 2) 'A', '=']
  | fuel + 1, a :: b :: c :: rest =>
    b64Alphabet.getD (a >>> 2) 'A'
      :: b64Alphabet.getD (((a &&& 0x3) <<< 4) ||| (b >>> 4)) 'A'
      :: b64Alphabet.getD (((b &&& 0xF) <<< 2) ||| (c >>> 6)) 'A'
      :: b64Alphabet.getD (c &&& 0x3F) 'A'
      :: b64EncodeAux fuel rest

/-- Model of `base64.b64encode(bs).decode()` as a Lean string. -/
def b64Encode (bs : List Nat) : String :=
  String.mk (b64EncodeAux bs.length bs)

/-- The accept value computed by `WebSocketConnection.accept`
(lines 98-101): `base64.b64encode(hashlib.sha1(ws_key.encode() +
WS_MAGIC).digest()).decode()`. -/
def accept_key (wsKey : String) : String :=
  b64Encode (sha1 (utf8Encode wsKey ++ WS_MAGIC))

/-! ### JSON values and `json.loads`

The handler parses inbound text with Python `json.loads` (default
options, so `NaN`/`Infinity`/`-Infinity` are accepted and strict mode
rejects literal control characters inside strings).  The model covers
the whole grammar the scanner accepts: whitespace, objects, arrays,
strings with the escape set including `\u` code units and surrogate
pairs, integer and float numerals per the scanner's number token
grammar, and the literals `true`/`false`/`null`.  As in Python, a
duplicated object key keeps the last binding.

Two representation notes.  A `\u`-escaped lone surrogate, which Python
keeps as a string character but a Lean `Char` cannot carry, decodes to
U+FFFD; this never changes how the handler classifies a message, since
parsed strings are only ever compared against the pure-ASCII control
words `init`/`resize`/`restart`/`ping` and the keys
`type`/`cwd`/`cols`/`rows`, none of which a surrogate can form.  A
float carries no numeric value: `handle_client` never consumes one —
`msg.get("type") == "..."` is `False` for every float and
`struct.pack("HHHH", ...)` raises for every float — so only floatness
is recorded.  (Python's interpreter recursion limit on very deeply
nested documents is an implementation limit, not modelled, like memory
exhaustion.) -/

inductive JVal where
  | jnull
  | jbool (b : Bool)
  | jnum (n : Int)
  | jfloat
  | jstr (s : String)
  | jarr (xs : List JVal)
  | jobj (fields : List (String × JVal))

/-- JSON whitespace skipping (the scanner skips exactly space, tab,
newline and carriage return). -/
def skipWs : List Char → List Char
  | c :: rest =>
    if c = ' ' ∨ c = '\t' ∨ c = '\n' ∨ c = '\r' then skipWs rest else c :: rest
  | [] => []

/-- Value of one hexadecimal digit. -/
def hexVal (c : Char) : Option Nat :=
  if '0' ≤ c ∧ c ≤ '9' then some (c.toNat - 48)
  else if 'a' ≤ c ∧ c ≤ 'f' then some (c.toNat - 87)
  else if 'A' ≤ c ∧ c ≤ 'F' then some (c.toNat - 55)
  else none

/-- Value of the four hex digits of a `\u` escape. -/
def hexVal4 (a b c d : Char) : Option Nat :=
  match hexVal a, hexVal b, hexVal c, hexVal d with
  | some va, some vb, some vc, some vd =>
    some (va * 4096 + vb * 256 + vc * 16 + vd)
  | _, _, _, _ => none

/-- Parse the body of a JSON string after the opening quote, as
Python's strict `scanstring` does: the escapes
`\" \\ \/ \b \f \n \r \t`, `\uXXXX` code units with surrogate-pair
combination (a lone surrogate, kept verbatim by Python, decodes to
U+FFFD — see the section comment), rejection of any other escape and
of any literal character below U+0020.  Fuel-indexed for structural
recursion; callers pass the remaining length plus one, which suffices
since every step consumes at least one character. -/
def parseJStr : Nat → List Char → Option (List Char × List Char)
  | 0, _ => none
  | _ + 1, [] => none
  | _ + 1, '"' :: rest => some ([], rest)
  | fuel + 1, '\\' :: 'u' :: h1 :: h2 :: h3 :: h4 :: rest =>
    match hexVal4 h1 h2 h3 h4 with
    | none => none
    | some u =>
      if 0xD800 ≤ u ∧ u ≤ 0xDBFF then
        match rest with
        | '\\' :: 'u' :: g1 :: g2 :: g3 :: g4 :: rest2 =>
          match hexVal4 g1 g2 g3 g4 with
          | some u2 =>
            if 0xDC00 ≤ u2 ∧ u2 ≤ 0xDFFF then
              (parseJStr fuel rest2).map (fun (s, r) =>
                (Char.ofNat (0x10000 + (u - 0xD800) * 0x400 + (u2 - 0xDC00)) :: s, r))
            else (parseJStr fuel rest).map (fun (s, r) => ('�' :: s, r))
          | none => (parseJStr fuel rest).map (fun (s, r) => ('�' :: s, r))
        | _ => (parseJStr fuel rest).map (fun (s, r) => ('�' :: s, r))
      else if 0xDC00 ≤ u ∧ u ≤ 0xDFFF then
        (parseJStr fuel rest).map (fun (s, r) => ('�' :: s, r))
      else
        (parseJStr fuel rest).map (fun (s, r) => (Char.ofNat u :: s, r))
  | fuel + 1, '\\' :: e :: rest =>
    let esc : Option Char :=
      if e = '"' then some '"'
      else if e = '\\' then some '\\'
      else if e = '/' then some '/'
      else if e = 'b' then some (Char.ofNat 8)
      else if e = 'f' then some (Char.ofNat 12)
      else if e = 'n' then some '\n'
      else if e = 'r' then some '\r'
      else if e = 't' then some '\t'
      else none
    match esc with
    | none => none
    | some ch => (parseJStr fuel rest).map (fun (s, r) => (ch :: s, r))
  | _ + 1, ['\\'] => none
  | fuel + 1, c :: rest =>
    if c.toNat < 0x20 then none
    else (parseJStr fuel rest).map (fun (s, r) => (c :: s, r))

/-- Maximal run of decimal digits and the remaining input. -/
def takeDigits : List Char → List Char × List Char
  | c :: rest =>
    if c.isDigit then
      let (ds, r) := takeDigits rest
      (c :: ds, r)
    else ([], c :: rest)
  | [] => ([], [])

/-- Value of a digit run. -/
def digitsVal (acc : Nat) : List Char → Nat
  | [] => acc
  | c :: rest => digitsVal (acc * 10 + (c.toNat - 48)) rest

/-- Number token after an optional leading minus, per the scanner's
number grammar `(0|[1-9][0-9]*)(\.[0-9]+)?([eE][+-]?[0-9]+)?`, matched
maximally: a present fraction or exponent makes the token a float,
otherwise it is an int.  A `0` followed by more digits ends the token
after the `0` (the caller then fails on the leftover digit, as Python
does). -/
def parseJNumCore (neg : Bool) : List Char → Option (JVal × List Char)
  | [] => none
  | c :: r =>
    if ¬c.isDigit then none
    else
      let (intDs, r1) := if c = '0' then ([c], r) else takeDigits (c :: r)
      let (fracPresent, r2) :=
        match r1 with
        | '.' :: rf =>
          let (ds, rr) := takeDigits rf
          if ds.isEmpty then (false, r1) else (true, rr)
        | _ => (false, r1)
      let (expPresent, r3) :=
        match r2 with
        | 'e' :: re =>
          let re2 := match re with
            | '+' :: rr => rr
            | '-' :: rr => rr
            | _ => re
          let (ds, rr) := takeDigits re2
          if ds.isEmpty then (false, r2) else (true, rr)
        | 'E' :: re =>
          let re2 := match re with
            | '+' :: rr => rr
            | '-' :: rr => rr
            | _ => re
          let (ds, rr) := takeDigits re2
          if ds.isEmpty then (false, r2) else (true, rr)
        | _ => (false, r2)
      if fracPresent ∨ expPresent then some (.jfloat, r3)
      else
        let n : Int := (digitsVal 0 intDs : Nat)
        some (.jnum (if neg then -n else n), r3)

/-- Numeral at a value position: an optional minus then the number
token, with the `-Infinity` constant `json.loads` accepts by
default. -/
def parseJNum : List Char → Option (JVal × List Char)
  | '-' :: 'I' :: 'n' :: 'f' :: 'i' :: 'n' :: 'i' :: 't' :: 'y' :: r =>
    some (.jfloat, r)
  | '-' :: r => parseJNumCore true r
  | s => parseJNumCore false s

mutual

/-- Parse one JSON value (fuel-indexed; `jsonLoads` passes the input
length plus one, which suffices since every recursive call follows the
consumption of at least one character). -/
def parseJVal : Nat → List Char → Option (JVal × List Char)
  | 0, _ => none
  | fuel + 1, s =>
    match skipWs s with
    | [] => none
    | c :: rest =>
      if c = '\x7b' then
        match skipWs rest with
        | '\x7d' :: rest' => some (.jobj [], rest')
        | other => (parseJMembers fuel other).map (fun (fs, r) => (.jobj fs, r))
      else if c = '[' then
        match skipWs rest with
        | ']' :: rest' => some (.jarr [], rest')
        | other => (parseJItems fuel other).map (fun (xs, r) => (.jarr xs, r))
      else if c = '"' then
        (parseJStr (rest.length + 1) rest).map (fun (cs, r) => (.jstr (String.mk cs), r))
      else if c = 't' then
        match rest with
        | 'r' :: 'u' :: 'e' :: r => some (.jbool true, r)
        | _ => none
      else if c = 'f' then
        match rest with
        | 'a' :: 'l' :: 's' :: 'e' :: r => some (.jbool false, r)
        | _ => none
      else if c = 'n' then
        match rest with
        | 'u' :: 'l' :: 'l' :: r => some (.jnull, r)
        | _ => none
      else if c = 'N' then
        match rest with
        | 'a' :: 'N' :: r => some (.jfloat, r)
        | _ => none
      else if c = 'I' then
        match rest with
        | 'n' :: 'f' :: 'i' :: 'n' :: 'i' :: 't' :: 'y' :: r => some (.jfloat, r)
        | _ => none
      else
        parseJNum (c :: rest)

/-- Parse the members of a JSON object, positioned at the first key. -/
def parseJMembers : Nat → List Char → Option (List (String × JVal) × List Char)
  | 0, _ => none
  | fuel + 1, s =>
    match skipWs s with
    | '"' :: rest =>
      match parseJStr (rest.length + 1) rest with
      | none => none
      | some (key, afterKey) =>
        match skipWs afterKey with
        | ':' :: afterColon =>
          match parseJVal fuel afterColon with
          | none => none
          | some (v, afterVal) =>
            match skipWs afterVal with
            | ',' :: afterComma =>
              (parseJMembers fuel afterComma).map
                (fun (fs, r) => ((String.mk key, v) :: fs, r))
            | '\x7d' :: afterBrace => some ([(String.mk key, v)], afterBrace)
            | _ => none
        | _ => none
    | _ => none

/-- Parse the items of a JSON array, positioned at the first item. -/
def parseJItems : Nat → List Char → Option (List JVal × List Char)
  | 0, _ => none
  | fuel + 1, s =>
    match parseJVal fuel s with
    | none => none
    | some (v, afterVal) =>
      match skipWs afterVal with
      | ',' :: afterComma =>
        (parseJItems fuel afterComma).map (fun (xs, r) => (v :: xs, r))
      | ']' :: afterBracket => some ([v], afterBracket)
      | _ => none

end

/-- Python `json.loads`: one JSON value, surrounded only by
whitespace; anything else raises `JSONDecodeError`, modelled as
`none`. -/
def jsonLoads (s : String) : Option JVal :=
  match parseJVal (s.length + 1) s.data with
  | some (v, rest) => if skipWs rest = [] then some v else none
  | none => none

/-- Lookup keeping the last binding of a key, as Python's dict
construction does for duplicated keys. -/
def lookupLast : List (String × JVal) → String → Option JVal
  | [], _ => none
  | (k', v') :: rest, k =>
    match lookupLast rest k with
    | some r => some r
    | none => if k' = k then some v' else none

/-- Python `dict.get(k)` on a parsed JSON object (`none` when the key
is absent or the value is not an object). -/
def jLookup (v : JVal) (k : String) : Option JVal :=
  match v with
  | .jobj fs => lookupLast fs k
  | _ => none

/-! ### Connection handler (`handle_client`, `start_new_session`)

The handler's observable actions are modelled as an event list;
`spawn` is the creation of a Terminal Session child process.  The
outbound connection is taken as open throughout (`WebSocketConnection.
send` silently drops messages on a closed connection; no claim
exercises that path). -/

/-- The handler-visible mutable state of one connection: whether a
(started) `ClaudeSession` is bound, and the remembered `cwd`, `cols`
and `rows` values (stored as the JSON values the client sent, as the
Python locals are). -/
structure HState where
  session : Bool
  cwd : Option JVal
  cols : JVal
  rows : JVal

/-- Observable actions of the connection handler. -/
inductive HEvent where
  /-- Model of `send_status(status, message)`: an outbound
  `{"type":"status", ...}` message. -/
  | statusMsg (status message : String)
  /-- The outbound `{"type":"pong"}` reply. -/
  | pongSend
  /-- Model of `session.start(...)`: fork/exec of the child process on a fresh
  PTY with the given working directory and dimensions. -/
  | spawn (cwd : Option JVal) (cols rows : Int)
  /-- Model of `session.stop()`. -/
  | stopSession
  /-- Model of `session.resize(cols, rows)` applied to the PTY. -/
  | resizeApplied (cols rows : Int)
  /-- Model of `session.write(data)` reaching `os.write` on the PTY master:
  `data` is the text after the U+FFFD filter. -/
  | writeChild (data : String)
  /-- Model of `websocket.close()`. -/
  | closeConn

/-- Errors that escape the per-message handling in `handle_client`'s
main loop (uncaught Python exceptions). -/
inductive HandlerErr where
  /-- Model of `KeyError` from `msg["cols"]` / `msg["rows"]`. -/
  | keyError (key : String)
  /-- Model of `struct.error` from packing a non-integer or out-of-range
  window dimension. -/
  | structError
deriving DecidableEq, Repr

/-- Model of `struct.pack("HHHH", ...)` accepts an integer in `[0, 65536)` for
each `"H"` field; anything else raises `struct.error`.  Returns the
accepted dimension. -/
def toWinsize (v : JVal) : Option Int :=
  match v with
  | .jnum n => if 0 ≤ n ∧ n < 65536 then some n else none
  | _ => none

/-- Model of `message.startswith("\x7b")` (the single-character prefix test
used at lines 456 and 488). -/
def pyStartsWith (m : String) (c : Char) : Bool :=
  m.data.head? == some c

/-- The U+FFFD filter of `ClaudeSession.write` (line 388):
`data.replace('�', '')`. -/
def removeFFFD (s : String) : String :=
  String.mk (s.data.filter (fun c => c ≠ '�'))

/-- The events produced by forwarding `message` as raw session input
(`handle_client` lines 509-510 with `ClaudeSession.write` lines
383-390): nothing without a session; otherwise the U+FFFD-filtered
text is written, and the write is skipped when nothing remains. -/
def childWriteEvents (st : HState) (m : String) : List HEvent :=
  if st.session then
    if removeFFFD m = "" then [] else [.writeChild (removeFFFD m)]
  else []

/-- Model of `start_new_session` (lines 469-476): stop any existing session,
create a new `ClaudeSession`, `start` it with the remembered `cwd`,
`cols`, `rows` (which sizes the PTY via `struct.pack`/`ioctl` before
forking), then `send_status("ready", "Claude is ready")`.  No other
status is sent.  A non-integer or out-of-range dimension makes
`struct.pack` raise inside `session.start`. -/
def start_new_session (st : HState) : Except HandlerErr (HState × List HEvent) :=
  match toWinsize st.cols, toWinsize st.rows with
  | some c, some r =>
    .ok ({ st with session := true },
      (if st.session then [.stopSession] else [])
        ++ [.spawn st.cwd c r, .statusMsg "ready" "Claude is ready"])
  | _, _ => .error .structError

/-- One iteration of `handle_client`'s main loop (lines 488-510) on a
received text message: JSON-shaped control messages are intercepted
(`resize`, `init`, `restart`, `ping`); everything else — including
text not starting with `"\x7b"`, text that fails `json.loads`, and
JSON with an unrecognized `type` — falls through to
`session.write(message)`. -/
def handle_message (st : HState) (m : String) :
    Except HandlerErr (HState × List HEvent) :=
  if pyStartsWith m '\x7b' then
    match jsonLoads m with
    | some v =>
      match jLookup v "type" with
      | some (.jstr t) =>
        if t = "resize" then
          match jLookup v "cols" with
          | none => .error (.keyError "cols")
          | some cv =>
            match jLookup v "rows" with
            | none => .error (.keyError "rows")
            | some rv =>
              let st' := { st with cols := cv, rows := rv }
              if st'.session then
                match toWinsize cv, toWinsize rv with
                | some c, some r => .ok (st', [.resizeApplied c r])
                | _, _ => .error .structError
              else .ok (st', [])
        else if t = "init" then .ok (st, [])
        else if t = "restart" then start_new_session st
        else if t = "ping" then .ok (st, [.pongSend])
        else .ok (st, childWriteEvents st m)
      | _ => .ok (st, childWriteEvents st m)
    | none => .ok (st, childWriteEvents st m)
  else .ok (st, childWriteEvents st m)

/-- The `finally` block of `handle_client` (lines 516-521): stop the
session if one exists, then close the connection. -/
def handler_cleanup (st : HState) : List HEvent :=
  (if st.session then [.stopSession] else []) ++ [.closeConn]

/-- Model of `handle_client`'s main loop over the sequence of received
messages, ending in the `finally` cleanup: an exhausted input models
the client disconnecting (`ConnectionError` from `recv`), and an
uncaught exception from message handling aborts the loop — both paths
run the cleanup.  (The 30-second receive timeout only re-enters the
loop and is not modelled.) -/
def main_loop (st : HState) : List String → List HEvent
  | [] => handler_cleanup st
  | m :: rest =>
    match handle_message st m with
    | .ok (st', ev) => ev ++ main_loop st' rest
    | .error _ => handler_cleanup st

/-- The state established by `handle_client` lines 449-464 before the
first session start: no session yet, defaults `cwd=None`, `cols=80`,
`rows=24`, then the optional initial message (`none` models the
5-second timeout).  Only a message that starts with `"\x7b"`, parses
as JSON and has `type == "init"` updates the defaults; a JSON decode
failure is caught and ignored.  No token or credential field is read
and no credential comparison is performed. -/
def init_state (initMsg : Option String) : HState :=
  let st0 : HState := ⟨false, none, .jnum 80, .jnum 24⟩
  match initMsg with
  | none => st0
  | some m =>
    if pyStartsWith m '\x7b' then
      match jsonLoads m with
      | some v =>
        match jLookup v "type" with
        | some (.jstr t) =>
          if t = "init" then
            { st0 with
              cwd := jLookup v "cwd",
              cols := (jLookup v "cols").getD (.jnum 80),
              rows := (jLookup v "rows").getD (.jnum 24) }
          else st0
        | _ => st0
      | none => st0
    else st0

/-- The startup of `handle_client` (lines 454-479): read the optional
init message, then unconditionally `start_new_session` — the first
and only act before the main loop.  There is no authentication branch
between the two. -/
def handle_client_start (initMsg : Option String) :
    Except HandlerErr (HState × List HEvent) :=
  start_new_session (init_state initMsg)

/-- The events of a handler step, with an uncaught exception
contributing none (`handle_message` raises before emitting any). -/
def eventsOf (r : Except HandlerErr (HState × List HEvent)) : List HEvent :=
  match r with
  | .ok (_, ev) => ev
  | .error _ => []

/-- The `status` fields of the status messages in an event list, in
order. -/
def statusesOf (evs : List HEvent) : List String :=
  evs.filterMap (fun e => match e with
    | .statusMsg s _ => some s
    | _ => none)

/-- The payloads written to the child's input in an event list, in
order. -/
def writesOf (evs : List HEvent) : List String :=
  evs.filterMap (fun e => match e with
    | .writeChild s => some s
    | _ => none)

/-- Whether an inbound text message decodes as a recognized control
message under the handler's decoding: it starts with `"\x7b"`, parses
as JSON, and its `type` field is one of `init`, `resize`, `restart`,
`ping`. -/
def decodesAsControl (m : String) : Bool :=
  pyStartsWith m '\x7b' &&
    match jsonLoads m with
    | some v =>
      match jLookup v "type" with
      | some (.jstr t) =>
        if t = "resize" then true
        else if t = "init" then true
        else if t = "restart" then true
        else if t = "ping" then true
        else false
      | _ => false
    | none => false

/-! ### Session teardown (`ClaudeSession.stop`) -/

/-- The fields of a `ClaudeSession` that `stop` touches.  `read_task`
is `true` while the `_read_pty` relay task handle is set; `pid` and
`master_fd` are `None`-able as in the source. -/
structure SessState where
  read_task : Bool
  pid : Option Nat
  master_fd : Option Nat
deriving DecidableEq, Repr

/-- The operating-system facts `stop` interacts with: which process
ids still have a process entry (alive or zombie, i.e. not yet
reaped), and which file descriptors are open. -/
structure OSState where
  procs : List Nat
  fds : List Nat
deriving DecidableEq, Repr

/-- Exceptions the OS primitives used by `stop` can raise. -/
inductive SessErr where
  | processLookupError
  | osError
deriving DecidableEq, Repr

/-- Model of `os.kill(pid, sig)`: raises `ProcessLookupError` when no process
entry exists for `pid` (already reaped); signalling an existing
process, zombie included, succeeds and does not remove its entry. -/
def osKill (os : OSState) (p : Nat) : Except SessErr Unit :=
  if p ∈ os.procs then .ok () else .error .processLookupError

/-- Model of `os.close(fd)`: raises `OSError` when the descriptor is not open;
otherwise closes it. -/
def osClose (os : OSState) (fd : Nat) : Except SessErr OSState :=
  if fd ∈ os.fds then .ok { os with fds := os.fds.erase fd } else .error .osError

/-- Model of `ClaudeSession.stop` (lines 412-436), with every Python statement
in source order.  Step 1: cancel and await the read task
(`CancelledError` is caught; `_read_pty` catches every other
exception itself), clear `read_task`.  Step 2: if `pid` is set, send
`SIGTERM`, sleep the 0.5s grace period, send `SIGKILL` — the whole
`try` catching `ProcessLookupError` — then clear `pid`.  Step 3: if
`master_fd` is set, `os.close` it catching `OSError`, then clear
`master_fd`.  An uncaught exception would surface as `.error`. -/
def ClaudeSession.stop (s : SessState) (os : OSState) :
    Except SessErr (SessState × OSState) := do
  let s1 : SessState := { s with read_task := false }
  let s2 : SessState ←
    match s1.pid with
    | some p =>
      match (do _ ← osKill os p; osKill os p : Except SessErr Unit) with
      | .ok _ => pure { s1 with pid := none }
      | .error .processLookupError => pure { s1 with pid := none }
      | .error e => throw e
    | none => pure s1
  match s2.master_fd with
  | some fd =>
    match osClose os fd with
    | .ok os' => pure ({ s2 with master_fd := none }, os')
    | .error .osError => pure ({ s2 with master_fd := none }, os)
    | .error e => throw e
  | none => pure (s2, os)

/-! ## Theorems -/

/-! ### Helper lemmas -/

theorem unpack16_pack16 (n : Nat) (h : n < 65536) : unpack16 (pack16 n) = n := by
  simp only [pack16, unpack16, List.getD, List.get?_eq_getElem?]
  simp only [List.getElem?_cons_zero, List.getElem?_cons_succ, Option.getD_some]
  omega

theorem unpack64_pack64 (n : Nat) (h : n < 2 ^ 64) : unpack64 (pack64 n) = n := by
  simp only [pack64, unpack64, List.foldl]
  omega

theorem and_127_of_lt {n : Nat} (h : n < 128) : n &&& 127 = n := by
  have h2 := Nat.and_pow_two_sub_one_eq_mod n 7
  norm_num at h2
  omega

/-- Helper: `xorMask` with a 4-byte key is defined everywhere and is its own
inverse, from any starting index. -/
theorem xorMask_involutive (k : List Nat) (hk : k.length = 4) :
    ∀ (p : List Nat) (i : Nat), ∃ q, xorMask k i p = some q ∧ xorMask k i q = some p := by
  intro p
  induction p with
  | nil => intro i; exact ⟨[], rfl, rfl⟩
  | cons b rest ih =>
    intro i
    have hlt : i % 4 < k.length := by rw [hk]; exact Nat.mod_lt _ (by norm_num)
    have hm : k.get? (i % 4) = some (k.get ⟨i % 4, hlt⟩) := List.get?_eq_get hlt
    set m := k.get ⟨i % 4, hlt⟩ with hmdef
    simp only [List.get?_eq_getElem?] at hm
    obtain ⟨q, hq1, hq2⟩ := ih (i + 1)
    refine ⟨(b ^^^ m) :: q, ?_, ?_⟩
    · simp [xorMask, hm, hq1]
    · simp [xorMask, hm, hq2, Nat.xor_cancel_right]

/-! ### Claim theorems -/

/-- C5: for every byte payload of length at most 70000 and every
4-byte mask key, masking the payload by XOR-ing byte `i` with
`mask_key[i mod 4]` and then unmasking with the same key — the XOR
performed by `WebSocketConnection.recv` — returns the original
payload. -/
theorem mask_unmask_roundtrip (payload key : List Nat)
    (hlen : payload.length ≤ 70000) (hkey : key.length = 4) :
    (maskPayload payload key).bind (fun q => unmaskPayload q key) = some payload := by
  obtain ⟨q, hq1, hq2⟩ := xorMask_involutive key hkey payload 0
  simp [maskPayload, unmaskPayload, hq1, hq2]

theorem mask_unmask_roundtrip_witness :
    (([104, 105, 106] : List Nat).length ≤ 70000 ∧ ([1, 2, 3, 4] : List Nat).length = 4)
      ∧ (maskPayload [104, 105, 106] [1, 2, 3, 4]).bind
          (fun q => unmaskPayload q [1, 2, 3, 4]) = some [104, 105, 106] :=
  ⟨⟨by decide, by decide⟩,
    mask_unmask_roundtrip [104, 105, 106] [1, 2, 3, 4] (by decide) (by decide)⟩

/-- C6: the frame-send length encoding of `_send_frame` (1 byte below
126, marker 126 plus big-endian 16 bits up to 65535, marker 127 plus
big-endian 64 bits otherwise) decodes back to the original length
under `recv`'s length decoding, for every length below `2^64`
(`struct.pack(">Q", ...)` would raise beyond that); the boundary
lengths 0, 125, 126, 65535 and 65536 are instances (see the
witness). -/
theorem frame_len_roundtrip (L : Nat) (h : L < 2 ^ 64) :
    recv_frame_len (send_frame_len L) = some (L, []) := by
  unfold send_frame_len
  by_cases h126 : L < 126
  · have hand : L &&& 127 = L := and_127_of_lt (by omega)
    simp only [if_pos h126, recv_frame_len, hand]
    have : ¬(L = 126) := by omega
    have : ¬(L = 127) := by omega
    simp [*]
  · by_cases h65536 : L < 65536
    · have e1 : (126 : Nat) &&& 127 = 126 := rfl
      simp only [if_neg h126, if_pos h65536, recv_frame_len, pack16, e1]
      norm_num [unpack16]
      omega
    · simp only [if_neg h126, if_neg h65536, recv_frame_len]
      norm_num [pack64, unpack64]
      omega

theorem frame_len_roundtrip_witness :
    ((0 : Nat) < 2 ^ 64 ∧ recv_frame_len (send_frame_len 0) = some (0, []))
      ∧ (125 < 2 ^ 64 ∧ recv_frame_len (send_frame_len 125) = some (125, []))
      ∧ (126 < 2 ^ 64 ∧ recv_frame_len (send_frame_len 126) = some (126, []))
      ∧ (65535 < 2 ^ 64 ∧ recv_frame_len (send_frame_len 65535) = some (65535, []))
      ∧ (65536 < 2 ^ 64 ∧ recv_frame_len (send_frame_len 65536) = some (65536, [])) :=
  ⟨⟨by norm_num, frame_len_roundtrip 0 (by norm_num)⟩,
   ⟨by norm_num, frame_len_roundtrip 125 (by norm_num)⟩,
   ⟨by norm_num, frame_len_roundtrip 126 (by norm_num)⟩,
   ⟨by norm_num, frame_len_roundtrip 65535 (by norm_num)⟩,
   ⟨by norm_num, frame_len_roundtrip 65536 (by norm_num)⟩⟩

set_option maxRecDepth 100000 in
/-- C7: the handshake accept value computed by
`WebSocketConnection.accept` — `base64(SHA-1(key ++ GUID))` — on the
RFC 6455 test-vector key `"dGhlIHNhbXBsZSBub25jZQ=="` equals the
RFC's expected accept value. -/
theorem accept_key_rfc6455_vector :
    accept_key "dGhlIHNhbXBsZSBub25jZQ==" = "s3pPLMBiTxaQ9kYGzzhZRbK+xOo=" := by
  rfl

/-- C2 (code bug): `strip_sync_markers` scans each read chunk in
isolation — there is no carry-over buffer in `_read_pty` — so the
`SYNC_START` marker `b'\x1b[?2026h'` split across the two reads
`b'\x1b[?2'` and `b'026h'` is relayed verbatim, while stripping the
whole stream at once removes it.  Chunk-by-chunk stripping therefore
differs from whole-stream stripping at this split. -/
theorem split_sync_marker_not_stripped :
    pty_relay_output [[27, 91, 63, 50], [48, 50, 54, 104]] = SYNC_START
      ∧ strip_sync_markers ([27, 91, 63, 50] ++ [48, 50, 54, 104]) = []
      ∧ pty_relay_output [[27, 91, 63, 50], [48, 50, 54, 104]]
          ≠ strip_sync_markers ([27, 91, 63, 50] ++ [48, 50, 54, 104]) := by
  refine ⟨rfl, rfl, ?_⟩
  decide

/-- C3 (code bug): `WebSocketConnection.recv` obtains the payload with
a single `reader.read(payload_len)` call.  For a frame declaring a
5-byte payload whose bytes arrive split `b'abc'` / `b'de'`, `recv`
returns the 3 bytes of the first read as the complete message (the
remaining chunk is left to be misread as the next frame header); and
when the stream ends before the payload (`read` returns `b''`), `recv`
returns an empty message instead of failing with a closed-connection
error. -/
theorem recv_short_read_not_retried :
    ws_recv 1 [[0x81, 5], [97, 98, 99], [100, 101]] = .ok ([97, 98, 99], [[100, 101]])
      ∧ ws_recv 1 [[0x81, 5]] = .ok ([], []) :=
  ⟨rfl, rfl⟩

/-- C1 (code bug): `handle_client` performs no credential check.  On
an init message carrying `token:"WRONG"` the startup reads only
`cwd`/`cols`/`rows`, spawns the Terminal Session child process
unconditionally, and emits only the `ready` status — no `auth_failed`
status exists anywhere on this path and the connection stays open. -/
theorem no_credential_check_before_spawn :
    handle_client_start
        (some "\x7b\"type\": \"init\", \"cwd\": \"notes\", \"token\": \"WRONG\"\x7d")
      = .ok (⟨true, some (.jstr "notes"), .jnum 80, .jnum 24⟩,
          [.spawn (some (.jstr "notes")) 80 24, .statusMsg "ready" "Claude is ready"])
      ∧ "auth_failed" ∉ statusesOf (eventsOf (handle_client_start
          (some "\x7b\"type\": \"init\", \"cwd\": \"notes\", \"token\": \"WRONG\"\x7d"))) := by
  exact ⟨rfl, by decide⟩

/-- C4 (counterexample): on the spec's own scenario — an init message
with `cwd:"notes"`, `cols:100`, `rows:30` and a token — the handler's
session start emits the single status `ready`; no `starting` status
precedes it (none is emitted anywhere), refuting the claimed
`starting`-then-`ready` sequence. -/
theorem session_start_emits_no_starting_status :
    statusesOf (eventsOf (handle_client_start
        (some "\x7b\"type\": \"init\", \"cwd\": \"notes\", \"cols\": 100, \"rows\": 30, \"token\": \"T\"\x7d")))
      = ["ready"]
      ∧ "starting" ∉ statusesOf (eventsOf (handle_client_start
        (some "\x7b\"type\": \"init\", \"cwd\": \"notes\", \"cols\": 100, \"rows\": 30, \"token\": \"T\"\x7d"))) := by
  exact ⟨rfl, by decide⟩

/-- C10: every text frame that decodes (under the handler's decoding,
which requires the leading brace) as JSON with type `resize` but
without a `cols` or without a `rows` field makes the main loop raise
an uncaught `KeyError` — from `msg["cols"]` or `msg["rows"]` — in any
handler state: the message contributes no event (in particular it is
neither ignored-and-continued nor forwarded as raw session input), the
loop aborts, the active session is stopped and the connection closed
by the `finally` block, and no later message is processed. -/
theorem resize_missing_field_terminates_connection :
    ∀ (st : HState) (m : String) (v : JVal) (rest : List String),
      pyStartsWith m '\x7b' = true →
      jsonLoads m = some v →
      jLookup v "type" = some (.jstr "resize") →
      (jLookup v "cols" = none ∨ jLookup v "rows" = none) →
      (∃ key, handle_message st m = .error (.keyError key))
        ∧ eventsOf (handle_message st m) = []
        ∧ main_loop st (m :: rest)
            = (if st.session then [HEvent.stopSession] else []) ++ [HEvent.closeConn] := by
  intro st m v rest hb hj hty hmiss
  have herr : ∃ key, handle_message st m = .error (.keyError key) := by
    rcases hmiss with hc | hr
    · exact ⟨"cols", by unfold handle_message; simp [hb, hj, hty, hc]⟩
    · cases hc : jLookup v "cols"
      · exact ⟨"cols", by unfold handle_message; simp [hb, hj, hty, hc]⟩
      · exact ⟨"rows", by unfold handle_message; simp [hb, hj, hty, hc, hr]⟩
  obtain ⟨key, hk⟩ := herr
  refine ⟨⟨key, hk⟩, by simp [eventsOf, hk], ?_⟩
  simp [main_loop, hk, handler_cleanup]

theorem resize_missing_field_terminates_connection_witness :
    ((∃ key, handle_message ⟨true, none, .jnum 80, .jnum 24⟩
          "\x7b\"type\": \"resize\", \"rows\": 30\x7d"
        = .error (.keyError key))
      ∧ eventsOf (handle_message ⟨true, none, .jnum 80, .jnum 24⟩
          "\x7b\"type\": \"resize\", \"rows\": 30\x7d") = []
      ∧ main_loop ⟨true, none, .jnum 80, .jnum 24⟩
          ["\x7b\"type\": \"resize\", \"rows\": 30\x7d", "echo hi\n"]
        = [.stopSession, .closeConn])
    ∧ ((∃ key, handle_message ⟨true, none, .jnum 80, .jnum 24⟩
          "\x7b\"type\": \"resize\", \"cols\": 100\x7d"
        = .error (.keyError key))
      ∧ eventsOf (handle_message ⟨true, none, .jnum 80, .jnum 24⟩
          "\x7b\"type\": \"resize\", \"cols\": 100\x7d") = []
      ∧ main_loop ⟨true, none, .jnum 80, .jnum 24⟩
          ["\x7b\"type\": \"resize\", \"cols\": 100\x7d", "echo hi\n"]
        = [.stopSession, .closeConn]) := by
  constructor
  · have h := resize_missing_field_terminates_connection
      ⟨true, none, .jnum 80, .jnum 24⟩
      "\x7b\"type\": \"resize\", \"rows\": 30\x7d"
      (.jobj [("type", .jstr "resize"), ("rows", .jnum 30)])
      ["echo hi\n"] rfl rfl rfl (Or.inl rfl)
    simpa using h
  · have h := resize_missing_field_terminates_connection
      ⟨true, none, .jnum 80, .jnum 24⟩
      "\x7b\"type\": \"resize\", \"cols\": 100\x7d"
      (.jobj [("type", .jstr "resize"), ("cols", .jnum 100)])
      ["echo hi\n"] rfl rfl rfl (Or.inr rfl)
    simpa using h

/-- C9: `ClaudeSession.stop` raises no error from any session state
against any OS state — the child may already be reaped
(`ProcessLookupError` is caught) and the master descriptor already
closed (`OSError` is caught) — it always reaches the fully stopped
state (task cancelled, `pid` and `master_fd` cleared), and a second
`stop` from that state is error-free and changes nothing.  Every
teardown path (explicit stop, disconnect cleanup, replacement on
restart) calls this one method. -/
theorem stop_idempotent_and_total (s : SessState) (os : OSState) :
    ∃ os', ClaudeSession.stop s os = .ok (⟨false, none, none⟩, os')
      ∧ ClaudeSession.stop ⟨false, none, none⟩ os' = .ok (⟨false, none, none⟩, os') := by
  have h2 : ∀ os₂ : OSState,
      ClaudeSession.stop ⟨false, none, none⟩ os₂ = .ok (⟨false, none, none⟩, os₂) :=
    fun _ => rfl
  unfold ClaudeSession.stop
  cases hp : s.pid with
  | none =>
    cases hf : s.master_fd with
    | none =>
      exact ⟨os, by simp [pure, Except.pure, bind, Except.bind], h2 os⟩
    | some fd =>
      by_cases hin : fd ∈ os.fds
      · exact ⟨{ os with fds := os.fds.erase fd },
          by simp [osClose, hin, pure, Except.pure, bind, Except.bind],
          h2 _⟩
      · exact ⟨os,
          by simp [osClose, hin, pure, Except.pure, bind, Except.bind],
          h2 os⟩
  | some p =>
    by_cases hkp : p ∈ os.procs
    · cases hf : s.master_fd with
      | none =>
        exact ⟨os, by simp [osKill, hkp, pure, Except.pure, bind, Except.bind], h2 os⟩
      | some fd =>
        by_cases hin : fd ∈ os.fds
        · exact ⟨{ os with fds := os.fds.erase fd },
            by simp [osKill, osClose, hkp, hin, pure, Except.pure, bind, Except.bind],
            h2 _⟩
        · exact ⟨os,
            by simp [osKill, osClose, hkp, hin, pure, Except.pure, bind, Except.bind],
            h2 os⟩
    · cases hf : s.master_fd with
      | none =>
        exact ⟨os, by simp [osKill, hkp, pure, Except.pure, bind, Except.bind], h2 os⟩
      | some fd =>
        by_cases hin : fd ∈ os.fds
        · exact ⟨{ os with fds := os.fds.erase fd },
            by simp [osKill, osClose, hkp, hin, pure, Except.pure, bind, Except.bind],
            h2 _⟩
        · exact ⟨os,
            by simp [osKill, osClose, hkp, hin, pure, Except.pure, bind, Except.bind],
            h2 os⟩

/-- C4 (amended): every session (re)start — the shared
`start_new_session` path used both for the initial start after init
and for every `restart` control message — stops any existing session,
spawns the new session, and then emits exactly one status, `ready`,
after the spawn; no `starting` status is emitted. -/
theorem session_start_stops_spawns_then_ready :
    (∀ (st : HState) (c r : Int),
      toWinsize st.cols = some c → toWinsize st.rows = some r →
      start_new_session st = .ok ({ st with session := true },
        (if st.session then [.stopSession] else [])
          ++ [.spawn st.cwd c r, .statusMsg "ready" "Claude is ready"]))
    ∧ (∀ st : HState,
        handle_message st "\x7b\"type\": \"restart\"\x7d" = start_new_session st)
    ∧ (∀ m : Option String,
        handle_client_start m = start_new_session (init_state m)) := by
  refine ⟨?_, ?_, ?_⟩
  · intro st c r hc hr
    unfold start_new_session
    rw [hc, hr]
  · intro st; rfl
  · intro m; rfl

theorem session_start_stops_spawns_then_ready_witness :
    toWinsize (JVal.jnum 100) = some 100 ∧ toWinsize (JVal.jnum 30) = some 30
      ∧ start_new_session ⟨true, some (.jstr "notes"), .jnum 100, .jnum 30⟩
        = .ok (⟨true, some (.jstr "notes"), .jnum 100, .jnum 30⟩,
            [.stopSession, .spawn (some (.jstr "notes")) 100 30,
              .statusMsg "ready" "Claude is ready"]) := by
  refine ⟨rfl, rfl, ?_⟩
  have h := session_start_stops_spawns_then_ready.1
    ⟨true, some (.jstr "notes"), .jnum 100, .jnum 30⟩ 100 30 rfl rfl
  simpa using h

theorem writesOf_childWriteEvents (st : HState) (m : String) :
    writesOf (childWriteEvents st m) =
      if st.session ∧ removeFFFD m ≠ "" then [removeFFFD m] else [] := by
  unfold childWriteEvents
  cases hs : st.session
  · simp [writesOf, hs]
  · by_cases he : removeFFFD m = ""
    · simp [writesOf, hs, he]
    · simp [writesOf, hs, he]

theorem writesOf_start_new_session (st : HState) :
    writesOf (eventsOf (start_new_session st)) = [] := by
  unfold start_new_session
  cases h1 : toWinsize st.cols <;> cases h2 : toWinsize st.rows <;>
    cases hs : st.session <;> simp [eventsOf, writesOf, hs]

/-- The routing invariant of one main-loop step, phrased with `cond`:
recognized control messages contribute no child writes; everything
else contributes exactly the filtered write. -/
theorem handle_message_writes (st : HState) (m : String) :
    writesOf (eventsOf (handle_message st m)) =
      cond (decodesAsControl m) [] (writesOf (childWriteEvents st m)) := by
  unfold handle_message decodesAsControl
  cases hb : pyStartsWith m '\x7b'
  · simp [eventsOf]
  · simp only [Bool.true_and, if_true]
    cases hj : jsonLoads m
    · simp [eventsOf]
    · rename_i v
      simp only []
      cases hty : jLookup v "type"
      · simp [eventsOf]
      · rename_i tv
        cases tv
        case jnull | jbool | jnum | jfloat | jarr | jobj => simp [eventsOf]
        case jstr t =>
          by_cases ht1 : t = "resize"
          · subst ht1
            simp only [if_pos rfl, cond_true, reduceIte]
            cases hc : jLookup v "cols"
            · simp [eventsOf, writesOf]
            · rename_i cv
              cases hr : jLookup v "rows"
              · simp [eventsOf, writesOf]
              · rename_i rv
                cases hs : st.session
                · simp [eventsOf, writesOf, hs]
                · cases h1 : toWinsize cv <;> cases h2 : toWinsize rv <;>
                    simp [eventsOf, writesOf, hs, h1, h2]
          · by_cases ht2 : t = "init"
            · subst ht2
              simp [ht1, eventsOf, writesOf]
            · by_cases ht3 : t = "restart"
              · subst ht3
                simp only [if_neg ht1, if_neg ht2, if_pos rfl, cond_true]
                exact writesOf_start_new_session st
              · by_cases ht4 : t = "ping"
                · subst ht4
                  simp [ht1, ht2, ht3, eventsOf, writesOf]
                · simp [ht1, ht2, ht3, ht4, eventsOf, writesOf]

/-- C8: an inbound text message that decodes as a recognized control
message (`init`, `resize`, `restart`, `ping`) is never written to the
child process's input stream, on every path that handling can take
(including the error paths); every other text message is written to
the child's input verbatim except that every occurrence of U+FFFD is
removed first, and the write is skipped entirely when nothing remains
after the filter (or when no session is bound). -/
theorem control_messages_never_forwarded :
    ∀ (st : HState) (m : String),
      writesOf (eventsOf (handle_message st m)) =
        if decodesAsControl m then []
        else if st.session ∧ removeFFFD m ≠ "" then [removeFFFD m] else [] := by
  intro st m
  rw [handle_message_writes]
  cases h : decodesAsControl m
  · simp [h, writesOf_childWriteEvents]
  · simp [h]
